import Mathlib

/-!
# A verification of `display_movies.py` (LM-SAL/screen_movies)

Shallow embedding of the single-file Python script `display_movies.py`.
The filesystem (recursive glob results, file sizes, presence and content of
the `KNOWN_BAD_<MOD>.txt` exclusion lists) and the video-decoding capability
(`cv2.VideoCapture`) are modelled as oracles supplied as parameters.
Python exceptions are modelled with an explicit error type and `Except`.
File contents are modelled as `List Char` (a Python `str` is a sequence of
characters); `"\n".join` is `List.intercalate` with separator `['\n']`.
-/

namespace ScreenMovies

/-- The Python exceptions the script can raise, by kind. -/
inductive PyError where
  | moduleNotFound
  | osError
  | fileNotFound
  | valueError
  | indexError
  | unboundLocal
  deriving DecidableEq, Repr

/-- Whether `l₁` occurs as a contiguous subsequence of `l₂`. -/
def listIsInfixOf (l₁ : List Char) : List Char → Bool
  | [] => l₁.isEmpty
  | x :: t => l₁.isPrefixOf (x :: t) || listIsInfixOf l₁ t

/-- Python's `needle in haystack` substring test on strings. -/
def strContains (haystack needle : String) : Bool :=
  listIsInfixOf needle.data haystack.data

/-- Python's `str.strip()` (remove leading/trailing whitespace). -/
def pyStrip (s : String) : String :=
  String.mk (((s.data.dropWhile Char.isWhitespace).reverse.dropWhile
    Char.isWhitespace).reverse)

/-- Python's no-argument `str.split()`: split on whitespace, dropping
empty pieces (so runs of whitespace act as one separator). -/
def pySplitWS (s : String) : List String :=
  ((s.data.splitOnP Char.isWhitespace).filter (fun t => !t.isEmpty)).map String.mk

/-- Python's `lst * n` (the list concatenated with itself `n` times),
as used in `movies.extend(get_paths_for_movies(...) * sample_frequency)`. -/
def pyListMul (l : List α) (n : Nat) : List α :=
  (List.replicate n l).flatten

/-- The oracle for the parts of the filesystem the script reads:
the recursive glob `base_path.rglob(filename)` (already converted to
strings, in discovery order), the content of the per-category
`KNOWN_BAD_<MOD>.txt` file (`none` when the file does not exist), and
`Path(p).stat().st_size`. -/
structure FS where
  rglob : String → String → List String
  knownBad : String → Option String
  size : String → Nat

/-- The category marker computed in `get_paths_for_movies`:
`"IRIS" if "iris" in str(base_path) else "AIA"`. -/
def modOf (base_path : String) : String :=
  if strContains base_path "iris" then "IRIS" else "AIA"

/-- `get_paths_for_movies(base_path, filename)`: recursively glob, read the
`KNOWN_BAD_<MOD>.txt` list (raising `FileNotFoundError` when absent, as
`Path.open` does), and return `list(set(files) - set(bad_files))`.
The Python result is an arbitrarily-ordered duplicate-free list with the
elements of the set difference; we represent it as the discovery-order
filter, deduplicated (the same set of elements). -/
def get_paths_for_movies (fs : FS) (base_path : String) (filename : String) :
    Except PyError (List String) :=
  let files := fs.rglob base_path filename
  match fs.knownBad (modOf base_path) with
  | none => .error .fileNotFound
  | some content =>
      let bad_files := pySplitWS (pyStrip content)
      .ok ((files.filter (fun f => !(bad_files.contains f))).dedup)

/-- `filter_files_by_size(file_paths, min_size_mb=1)`.  The float
`min_size_mb` is modelled as a rational (the conversion
`min_size_mb * 1024 * 1024` and the `>=` comparison are exact). -/
def filter_files_by_size (fs : FS) (file_paths : List String)
    (min_size_mb : ℚ := 1) : List String :=
  let min_size_bytes := min_size_mb * 1024 * 1024
  file_paths.filter (fun file_path => (fs.size file_path : ℚ) ≥ min_size_bytes)

/-- The oracle for `cv2`: whether `cv2.VideoCapture(p).isOpened()` holds,
and whether the first `video.read()` returns `ret = True`. -/
structure CV where
  opens : String → Bool
  readFrame : String → Bool

/-- The per-file loop of `check_videos`: first component is `result`
(files that open and yield a frame, in order), second is `bad_movies`. -/
def check_loop (cv : CV) : List String → List String × List String
  | [] => ([], [])
  | file_path :: rest =>
      let p := check_loop cv rest
      if cv.opens file_path then
        if cv.readFrame file_path then (file_path :: p.1, p.2)
        else (p.1, file_path :: p.2)
      else (p.1, file_path :: p.2)

/-- The report file `check_videos` writes: its name
`bad_movies_<MOD>.txt` and the list of bad movies whose newline-join is
written as its full content (the prior file is unlinked first). -/
structure Report where
  filename : String
  bad : List String
  deriving DecidableEq, Repr

/-- The exact character content written to the report file:
`"\n".join(bad_movies)`. -/
def report_content (r : Report) : List Char :=
  List.intercalate [Char.ofNat 10] (r.bad.map String.data)

/-- `check_videos(file_paths)`.  After the loop, line 119 evaluates
`"iris" in file_path[0]` where `file_path` is the loop variable: on an
empty input list it was never bound (`UnboundLocalError`); on a non-empty
list it is the LAST element, and `file_path[0]` is its first character
(raising `IndexError` on an empty string).  On success, returns the
retained files and the report that is written. -/
def check_videos (cv : CV) (file_paths : List String) :
    Except PyError (List String × Report) :=
  let rb := check_loop cv file_paths
  match file_paths.getLast? with
  | none => .error .unboundLocal
  | some file_path =>
      match file_path.data with
      | [] => .error .indexError
      | c :: _ =>
          let mod := if strContains (String.singleton c) "iris" then "IRIS" else "AIA"
          .ok (rb.1, { filename := "bad_movies_" ++ mod ++ ".txt", bad := rb.2 })

/-- `create_playlist(movies)`: unlink any existing `playlist.m3u`
(`missing_ok=True`), then write `"\n".join(movies)`.  The resulting file
content is returned; the prior content (`none` when the file was absent)
is passed to show the result never depends on it. -/
def create_playlist (movies : List String) (_prior : Option (List Char)) :
    List Char :=
  List.intercalate [Char.ofNat 10] (movies.map String.data)

/-- Reading the playlist file back and splitting it on newlines. -/
def read_playlist_lines (content : List Char) : List String :=
  (content.splitOn (Char.ofNat 10)).map String.mk

/-- `check_everything_is_installed()`: raise `ModuleNotFoundError` on the
first required program `shutil.which` cannot resolve. -/
def check_everything_is_installed (which : String → Bool) :
    List String → Except PyError Unit
  | [] => .ok ()
  | program :: rest =>
      if which program then check_everything_is_installed which rest
      else .error .moduleNotFound

/-- `check_directories_mounted()`: raise `OSError` on the first non-null
directory whose expanded/resolved path does not exist. -/
def check_directories_mounted (dirExists : String → Bool) :
    List (Option String) → Except PyError Unit
  | [] => .ok ()
  | none :: rest => check_directories_mounted dirExists rest
  | some directory :: rest =>
      if dirExists directory then check_directories_mounted dirExists rest
      else .error .osError

/-- `play_movies_in_random_order()`: raise `FileNotFoundError` when
`playlist.m3u` does not exist; otherwise invoke
`REQUIRED_PROGRAMS[0] --rate 0.5 --fullscreen --random --loop playlist.m3u`
via `os.system`.  `.ok cmd` means exactly one external process invocation
with command line `cmd`; `.error` means no invocation happened. -/
def play_movies_in_random_order (playlistExists : Bool)
    (required_programs : List String) : Except PyError String :=
  if playlistExists then
    match required_programs with
    | [] => .error .indexError
    | program :: _ =>
        .ok (program ++ " --rate 0.5 --fullscreen --random --loop playlist.m3u")
  else .error .fileNotFound

/-- Modelled from the spec: the `config` module (not under `src/`) supplies
parallel lists `PATHS` (nullable base directories), `SAMPLE_FREQUENCY`
(integer sampling weights), `FILENAME_PATTERN` (glob patterns), and
`REQUIRED_PROGRAMS` (external program names). -/
structure Config where
  paths : List (Option String)
  sample_frequency : List Nat
  filename_pattern : List String
  required_programs : List String

/-- `zip(PATHS, SAMPLE_FREQUENCY, FILENAME_PATTERN, strict=True)`:
`ValueError` when the lists do not all have the same length. -/
def zip3_strict : List α → List β → List γ → Except PyError (List (α × β × γ))
  | [], [], [] => .ok []
  | a :: as, b :: bs, c :: cs => do
      let rest ← zip3_strict as bs cs
      .ok ((a, b, c) :: rest)
  | _, _, _ => .error .valueError

/-- The `__main__` accumulation loop with `CHECK_MOVIES = False`: skip
`None` base paths, otherwise extend `movies` with
`get_paths_for_movies(base_path, filename_pattern) * sample_frequency`. -/
def collect_movies (fs : FS) :
    List (Option String × Nat × String) → Except PyError (List String)
  | [] => .ok []
  | (none, _, _) :: rest => collect_movies fs rest
  | (some base_path, sample_frequency, filename_pattern) :: rest => do
      let found ← get_paths_for_movies fs base_path filename_pattern
      let ms ← collect_movies fs rest
      .ok (pyListMul found sample_frequency ++ ms)

/-- The `__main__` pipeline (with `CHECK_MOVIES = False`), up to and
including the playlist write: validate programs and directories, collect
the weighted movie list, write `playlist.m3u`.  Returns the movie list and
the playlist file content. -/
def run_main (which : String → Bool) (dirExists : String → Bool) (fs : FS)
    (cfg : Config) : Except PyError (List String × List Char) := do
  let _ ← check_everything_is_installed which cfg.required_programs
  let _ ← check_directories_mounted dirExists cfg.paths
  let triples ← zip3_strict cfg.paths cfg.sample_frequency cfg.filename_pattern
  let movies ← collect_movies fs triples
  let content := create_playlist movies none
  .ok (movies, content)

/-! ## Concrete instances used by counterexamples and witnesses -/

/-- A filesystem whose glob finds `["a"]` while the known-bad list holds
the unrelated entry `"b"`. -/
def fsStray : FS :=
  { rglob := fun _ _ => ["a"], knownBad := fun _ => some "b", size := fun _ => 0 }

/-- A filesystem whose known-bad list holds `"bad.mp4"`, one of the two
glob matches. -/
def fsKnown : FS :=
  { rglob := fun _ _ => ["good.mp4", "bad.mp4"]
    knownBad := fun _ => some "bad.mp4", size := fun _ => 0 }

/-- A filesystem with no known-bad list at all. -/
def fsNoList : FS :=
  { rglob := fun _ _ => ["x.mp4"], knownBad := fun _ => none, size := fun _ => 0 }

/-- A filesystem with one file of exactly 1 MB and one file one byte
under. -/
def fsSizes : FS :=
  { rglob := fun _ _ => [], knownBad := fun _ => none
    size := fun p => if p = "exact.mp4" then 1048576 else 1048575 }

/-- A decoding oracle for which every file fails to open. -/
def cvRejectAll : CV := { opens := fun _ => false, readFrame := fun _ => false }

/-- A decoding oracle for which exactly `good.mp4` opens and yields a
frame. -/
def cvOnlyGood : CV :=
  { opens := fun s => s == "good.mp4", readFrame := fun s => s == "good.mp4" }

/-- The filesystem of the end-to-end example: `A` holds `a1.mp4`, `B`
holds `b1.avi`, and the known-bad lists exist but are empty. -/
def fsExample : FS :=
  { rglob := fun b pat =>
      if b = "A" && pat = "*.mp4" then ["a1.mp4"]
      else if b = "B" && pat = "*.avi" then ["b1.avi"] else []
    knownBad := fun _ => some "", size := fun _ => 0 }

/-- The configuration of the end-to-end example: directories
`[A, None, B]`, patterns `["*.mp4","*.mp4","*.avi"]`, weights `[1,1,2]`. -/
def cfgExample : Config :=
  { paths := [some "A", none, some "B"]
    sample_frequency := [1, 1, 2]
    filename_pattern := ["*.mp4", "*.mp4", "*.avi"]
    required_programs := ["vlc"] }

/-! ## Helper lemmas -/

/-- The `result` list of the `check_videos` loop keeps, in order, exactly
the files that open and yield a frame. -/
theorem check_loop_fst (cv : CV) (fps : List String) :
    (check_loop cv fps).1 = fps.filter (fun f => cv.opens f && cv.readFrame f) := by
  induction fps with
  | nil => rfl
  | cons f rest ih =>
      by_cases ho : cv.opens f = true <;> by_cases hr : cv.readFrame f = true <;>
        simp [check_loop, ho, hr, ih]

/-- The `bad_movies` list of the `check_videos` loop collects, in order,
exactly the files that fail to open or to yield a frame. -/
theorem check_loop_snd (cv : CV) (fps : List String) :
    (check_loop cv fps).2 = fps.filter (fun f => !(cv.opens f && cv.readFrame f)) := by
  induction fps with
  | nil => rfl
  | cons f rest ih =>
      by_cases ho : cv.opens f = true <;> by_cases hr : cv.readFrame f = true <;>
        simp [check_loop, ho, hr, ih]

/-- `"iris"` is never a substring of a single-character string, so the
category computed on line 119 of the source can never be `"IRIS"`. -/
theorem strContains_singleton_iris (c : Char) :
    strContains (String.singleton c) "iris" = false := by
  simp [strContains, String.singleton, listIsInfixOf, List.isPrefixOf]

/-- Membership in a successful `get_paths_for_movies` result: exactly the
glob matches that are not on the known-bad list. -/
theorem mem_get_paths_ok (fs : FS) (b p content : String) (r : List String)
    (hc : fs.knownBad (modOf b) = some content)
    (hr : get_paths_for_movies fs b p = .ok r) (x : String) :
    x ∈ r ↔ x ∈ fs.rglob b p ∧ x ∉ pySplitWS (pyStrip content) := by
  have hrr : r = ((fs.rglob b p).filter
      (fun f => !((pySplitWS (pyStrip content)).contains f))).dedup := by
    simp only [get_paths_for_movies, hc] at hr
    exact (Except.ok.inj hr).symm
  subst hrr
  simp [List.mem_dedup, List.mem_filter]

/-- Anatomy of a successful `check_videos` run: the returned list keeps
exactly the files that open and yield a frame, and the report is written
to `bad_movies_AIA.txt` (the category test on line 119 inspects a single
character and can never match `"iris"`) with exactly the failing files. -/
theorem check_videos_ok_parts (cv : CV) (fps result : List String) (report : Report)
    (h : check_videos cv fps = .ok (result, report)) :
    result = fps.filter (fun f => cv.opens f && cv.readFrame f)
    ∧ report.filename = "bad_movies_AIA.txt"
    ∧ report.bad = fps.filter (fun f => !(cv.opens f && cv.readFrame f)) := by
  simp only [check_videos] at h
  split at h
  · cases h
  · rename_i lastP hgl
    split at h
    · cases h
    · rename_i c cs hd
      rw [strContains_singleton_iris c] at h
      simp only [Bool.false_eq_true, if_false] at h
      obtain ⟨hres, hrep⟩ := Prod.mk.inj (Except.ok.inj h)
      refine ⟨?_, ?_, ?_⟩
      · rw [← hres, check_loop_fst]
      · rw [← hrep]
        rfl
      · rw [← hrep, check_loop_snd]

/-! ## Claim theorems -/

/-- C10: calling `check_videos` on an empty list of candidate files raises
an unbound-variable error (line 119 reads the loop variable `file_path`
after a loop that never ran) instead of returning an empty list. -/
theorem check_videos_empty_raises (cv : CV) :
    check_videos cv [] = .error .unboundLocal := rfl

/-- C6: when the known-bad list expected for the base directory's category
is absent, `get_paths_for_movies` fails with a file-not-found condition
and returns no result. -/
theorem get_paths_missing_list_fails (fs : FS) (b p : String)
    (h : fs.knownBad (modOf b) = none) :
    get_paths_for_movies fs b p = .error .fileNotFound := by
  simp [get_paths_for_movies, h]

/-- Witness for C6: a concrete filesystem with no known-bad list. -/
theorem get_paths_missing_list_fails_witness :
    get_paths_for_movies fsNoList "A" "*.mp4" = .error .fileNotFound :=
  get_paths_missing_list_fails fsNoList "A" "*.mp4" rfl

/-- C7: with no playlist file present the launcher raises the not-found
condition and performs no process invocation (no `.ok` command); with a
playlist present it invokes the first required program with the fixed
flags `--rate 0.5 --fullscreen --random --loop` on `playlist.m3u`. -/
theorem play_movies_launcher_correct (required_programs : List String)
    (prog : String) (rest : List String) (hp : required_programs = prog :: rest) :
    play_movies_in_random_order false required_programs = .error .fileNotFound
    ∧ play_movies_in_random_order true required_programs
      = .ok (prog ++ " --rate 0.5 --fullscreen --random --loop playlist.m3u") := by
  subst hp
  exact ⟨rfl, rfl⟩

/-- Witness for C7: the configured program list `["vlc"]`. -/
theorem play_movies_launcher_correct_witness :
    play_movies_in_random_order false ["vlc"] = .error .fileNotFound
    ∧ play_movies_in_random_order true ["vlc"]
      = .ok ("vlc" ++ " --rate 0.5 --fullscreen --random --loop playlist.m3u") :=
  play_movies_launcher_correct ["vlc"] "vlc" [] rfl

/-- C4: `filter_files_by_size` retains exactly the files whose byte size
is at least `min_size_mb * 1024 * 1024`; omitting the parameter uses the
default 1 MB; a file of exactly the 1 MB threshold is retained and a file
one byte under it is excluded. -/
theorem filter_files_by_size_correct (fs : FS) (paths : List String)
    (m : ℚ) (p : String) :
    (p ∈ filter_files_by_size fs paths m ↔
      p ∈ paths ∧ m * 1024 * 1024 ≤ (fs.size p : ℚ))
    ∧ filter_files_by_size fs paths = filter_files_by_size fs paths 1
    ∧ (p ∈ paths → fs.size p = 1024 * 1024 → p ∈ filter_files_by_size fs paths 1)
    ∧ (fs.size p = 1024 * 1024 - 1 → p ∉ filter_files_by_size fs paths 1) := by
  have hmem : ∀ (q : ℚ), p ∈ filter_files_by_size fs paths q ↔
      p ∈ paths ∧ q * 1024 * 1024 ≤ (fs.size p : ℚ) := by
    intro q
    simp [filter_files_by_size, List.mem_filter, ge_iff_le]
  refine ⟨hmem m, rfl, ?_, ?_⟩
  · intro hp hsz
    exact (hmem 1).mpr ⟨hp, by rw [hsz]; norm_num⟩
  · intro hsz hmem1
    have := ((hmem 1).mp hmem1).2
    rw [hsz] at this
    norm_num at this

/-- Witness for C4: under `fsSizes`, the exactly-1 MB file is retained and
the one-byte-under file is excluded at the default threshold. -/
theorem filter_files_by_size_correct_witness :
    "exact.mp4" ∈ filter_files_by_size fsSizes ["exact.mp4", "small.mp4"]
    ∧ "small.mp4" ∉ filter_files_by_size fsSizes ["exact.mp4", "small.mp4"] :=
  ⟨(filter_files_by_size_correct fsSizes ["exact.mp4", "small.mp4"] 1
      "exact.mp4").2.2.1 (by simp) (by decide),
   (filter_files_by_size_correct fsSizes ["exact.mp4", "small.mp4"] 1
      "small.mp4").2.2.2 (by decide)⟩

/-- C1 counterexample: with glob matches `["a"]` and known-bad list
content `"b"`, the locator returns `["a"]`, but the union of the result
with the known-bad entries is `{a, b}`, not the match set `{a}`: the
claimed union equation fails when the known-bad list holds an entry that
is not a glob match. -/
theorem get_paths_union_counterexample :
    get_paths_for_movies fsStray "base" "*.mp4" = .ok ["a"]
    ∧ fsStray.knownBad (modOf "base") = some "b"
    ∧ pySplitWS (pyStrip "b") = ["b"]
    ∧ ¬ ((["a"] : List String).toFinset ∪ (["b"] : List String).toFinset
        = (fsStray.rglob "base" "*.mp4").toFinset) := by
  refine ⟨rfl, rfl, rfl, fun h => ?_⟩
  have hb : ("b" : String) ∈ (fsStray.rglob "base" "*.mp4").toFinset := by
    rw [← h]; simp
  simp [fsStray] at hb

/-- C1 (amended): when every entry of the known-bad list is among the glob
matches, the exclusion-mode locator's result unioned with the known-bad
entries equals the full recursive match set, and the result contains no
known-bad entry. -/
theorem get_paths_set_difference (fs : FS) (b p content : String) (r : List String)
    (hc : fs.knownBad (modOf b) = some content)
    (hr : get_paths_for_movies fs b p = .ok r)
    (hsub : ∀ x ∈ pySplitWS (pyStrip content), x ∈ fs.rglob b p) :
    r.toFinset ∪ (pySplitWS (pyStrip content)).toFinset = (fs.rglob b p).toFinset
    ∧ ∀ x ∈ r, x ∉ pySplitWS (pyStrip content) := by
  have hmem := mem_get_paths_ok fs b p content r hc hr
  constructor
  · ext x
    simp only [Finset.mem_union, List.mem_toFinset]
    constructor
    · rintro (hx | hx)
      · exact ((hmem x).mp hx).1
      · exact hsub x hx
    · intro hx
      by_cases hbad : x ∈ pySplitWS (pyStrip content)
      · exact Or.inr hbad
      · exact Or.inl ((hmem x).mpr ⟨hx, hbad⟩)
  · intro x hx
    exact ((hmem x).mp hx).2

/-- Witness for C1 (amended): matches `["good.mp4", "bad.mp4"]` with
known-bad list `"bad.mp4"`. -/
theorem get_paths_set_difference_witness :
    (["good.mp4"] : List String).toFinset ∪ (pySplitWS (pyStrip "bad.mp4")).toFinset
      = (fsKnown.rglob "A" "*.mp4").toFinset
    ∧ ∀ x ∈ (["good.mp4"] : List String), x ∉ pySplitWS (pyStrip "bad.mp4") :=
  get_paths_set_difference fsKnown "A" "*.mp4" "bad.mp4" ["good.mp4"]
    rfl rfl (by decide)

/-- C2 counterexample: on the empty movie list the playlist file content
is empty, and splitting it on newlines yields `[""]`, not the input
`[]`. -/
theorem create_playlist_roundtrip_counterexample :
    create_playlist [] (some ("stale".data)) = []
    ∧ read_playlist_lines (create_playlist [] (some ("stale".data))) = [""]
    ∧ ([""] : List String) ≠ ([] : List String) :=
  ⟨rfl, rfl, by simp⟩

/-- C2 (amended): for every non-empty list of movie paths none of which
contains a newline character, and whatever the prior playlist file held
(including nothing), reading the written playlist back and splitting it on
newlines yields exactly the input list, in order. -/
theorem create_playlist_roundtrip (movies : List String) (prior : Option (List Char))
    (hne : movies ≠ [])
    (hnl : ∀ m ∈ movies, Char.ofNat 10 ∉ m.data) :
    read_playlist_lines (create_playlist movies prior) = movies := by
  have hx : ∀ l ∈ movies.map String.data, Char.ofNat 10 ∉ l := by
    intro l hl
    obtain ⟨m, hm, rfl⟩ := List.mem_map.mp hl
    exact hnl m hm
  have hls : movies.map String.data ≠ [] := by simpa using hne
  unfold read_playlist_lines create_playlist
  rw [List.splitOn_intercalate (movies.map String.data) (Char.ofNat 10) hx hls]
  rw [List.map_map]
  have hid : (String.mk ∘ String.data) = id := funext fun s => rfl
  rw [hid, List.map_id]

/-- Witness for C2 (amended): two newline-free paths over a stale prior
playlist. -/
theorem create_playlist_roundtrip_witness :
    read_playlist_lines (create_playlist ["a1.mp4", "b1.avi"] (some ("stale".data)))
      = ["a1.mp4", "b1.avi"] :=
  create_playlist_roundtrip ["a1.mp4", "b1.avi"] (some ("stale".data))
    (by simp) (by decide)

/-- C3 counterexample: a batch whose single (hence first) failing path has
directory name `iris`, yet the report goes to `bad_movies_AIA.txt`, not
`bad_movies_IRIS.txt`: line 119 tests `"iris"` against the one-character
string `file_path[0]`, which never matches. -/
theorem check_videos_category_counterexample :
    check_videos cvRejectAll ["iris/movie.mp4"]
      = .ok ([], { filename := "bad_movies_AIA.txt", bad := ["iris/movie.mp4"] })
    ∧ strContains "iris/movie.mp4" "iris" = true
    ∧ "bad_movies_AIA.txt" ≠ "bad_movies_IRIS.txt" :=
  ⟨rfl, rfl, by simp⟩

/-- C3 (amended): whenever `check_videos` completes, the report is written
to `bad_movies_AIA.txt` regardless of the failing paths (the category
expression reads the first character of the last processed path and can
never contain `"iris"`), and its full content is the newline-join of
exactly this run's failing entries, replacing any prior report. -/
theorem check_videos_report_always_AIA (cv : CV) (fps result : List String)
    (report : Report) (h : check_videos cv fps = .ok (result, report)) :
    report.filename = "bad_movies_AIA.txt"
    ∧ report.bad = fps.filter (fun f => !(cv.opens f && cv.readFrame f))
    ∧ report_content report
      = List.intercalate [Char.ofNat 10] (report.bad.map String.data) := by
  obtain ⟨-, hname, hbad⟩ := check_videos_ok_parts cv fps result report h
  exact ⟨hname, hbad, rfl⟩

/-- Witness for C3 (amended): a failing batch under an `iris` directory
still reports to `bad_movies_AIA.txt`. -/
theorem check_videos_report_always_AIA_witness :
    ({ filename := "bad_movies_AIA.txt", bad := ["iris/bad.avi"] } : Report).filename
      = "bad_movies_AIA.txt"
    ∧ ({ filename := "bad_movies_AIA.txt", bad := ["iris/bad.avi"] } : Report).bad
      = (["iris/bad.avi"] : List String).filter
          (fun f => !(cvRejectAll.opens f && cvRejectAll.readFrame f))
    ∧ report_content { filename := "bad_movies_AIA.txt", bad := ["iris/bad.avi"] }
      = List.intercalate [Char.ofNat 10]
          ((({ filename := "bad_movies_AIA.txt", bad := ["iris/bad.avi"] } : Report).bad).map
            String.data) :=
  check_videos_report_always_AIA cvRejectAll ["iris/bad.avi"] []
    { filename := "bad_movies_AIA.txt", bad := ["iris/bad.avi"] } rfl

/-- C5: on a completed `check_videos` run, a candidate that fails to open
or to yield a frame is excluded from the returned list and appears in the
written report's bad list; a candidate that opens and yields a frame is
returned and absent from the report. -/
theorem check_videos_classifies (cv : CV) (fps : List String) (f : String)
    (result : List String) (report : Report)
    (h : check_videos cv fps = .ok (result, report)) (hf : f ∈ fps) :
    (f ∈ result ↔ cv.opens f = true ∧ cv.readFrame f = true)
    ∧ (f ∈ report.bad ↔ ¬(cv.opens f = true ∧ cv.readFrame f = true)) := by
  obtain ⟨hres, -, hbad⟩ := check_videos_ok_parts cv fps result report h
  subst hres
  constructor
  · simp [List.mem_filter, hf]
  · rw [hbad]
    cases ho : cv.opens f <;> cases hr : cv.readFrame f <;>
      simp [List.mem_filter, hf, ho, hr]

/-- Witness for C5: under `cvOnlyGood`, `good.mp4` is retained and absent
from the report of the batch `["good.mp4", "corrupt.avi"]`. -/
theorem check_videos_classifies_witness :
    ("good.mp4" ∈ (["good.mp4"] : List String) ↔
      cvOnlyGood.opens "good.mp4" = true ∧ cvOnlyGood.readFrame "good.mp4" = true)
    ∧ ("good.mp4" ∈ ({ filename := "bad_movies_AIA.txt", bad := ["corrupt.avi"] } : Report).bad ↔
      ¬(cvOnlyGood.opens "good.mp4" = true ∧ cvOnlyGood.readFrame "good.mp4" = true)) :=
  check_videos_classifies cvOnlyGood ["good.mp4", "corrupt.avi"] "good.mp4"
    ["good.mp4"] { filename := "bad_movies_AIA.txt", bad := ["corrupt.avi"] }
    rfl (by simp)

/-- C8: the end-to-end pipeline on directories `[A, None, B]`, patterns
`["*.mp4", "*.mp4", "*.avi"]` and weights `[1, 1, 2]`, with `A` holding
`a1.mp4` and `B` holding `b1.avi` and empty known-bad lists, produces the
movie list `a1.mp4` once and `b1.avi` twice (the `None` entry contributes
nothing) and a playlist file with exactly those lines. -/
theorem end_to_end_weighted_playlist :
    run_main (fun _ => true) (fun _ => true) fsExample cfgExample
      = .ok (["a1.mp4", "b1.avi", "b1.avi"], ("a1.mp4\nb1.avi\nb1.avi").data) := rfl

/-- C9: a null directory entry is skipped by both the mount validator and
the locator loop: deleting it from the configuration changes neither the
validator's outcome nor the collected movie list, so it contributes no
entries and raises no error. -/
theorem null_entries_skipped (dirExists : String → Bool) (fs : FS)
    (ps1 ps2 : List (Option String)) (ts1 ts2 : List (Option String × Nat × String))
    (freq : Nat) (pat : String) :
    check_directories_mounted dirExists (ps1 ++ none :: ps2)
      = check_directories_mounted dirExists (ps1 ++ ps2)
    ∧ collect_movies fs (ts1 ++ (none, freq, pat) :: ts2)
      = collect_movies fs (ts1 ++ ts2) := by
  constructor
  · induction ps1 with
    | nil => rfl
    | cons o t ih =>
        cases o with
        | none => simpa [check_directories_mounted] using ih
        | some d =>
            simp only [List.cons_append, check_directories_mounted,
              List.append_eq, ih]
  · induction ts1 with
    | nil => rfl
    | cons tr t ih =>
        obtain ⟨ob, fr, pt⟩ := tr
        cases ob with
        | none => simpa [collect_movies] using ih
        | some b =>
            simp only [List.cons_append, collect_movies, List.append_eq, ih]

end ScreenMovies
